import Mathlib

/-!
Verification of the channel-adapter / conversation / task core of the
pydantic-ai-agent repository, as a shallow embedding in Lean.

Python dictionaries and JSON payloads are modelled by `Json`; database rows
by records mirroring the SQLAlchemy models in `app/database/models.py`;
the database session state by `DBState` (lists of rows plus a fresh-id
counter standing in for `uuid4`); wall-clock readings by explicit `now`
arguments; exceptions by `Except PyError`; and the external HMAC-SHA256
primitive by an explicit function argument `hmacSha256`.
-/

namespace App

/-- JSON-like values, modelling Python dicts, strings, lists as they occur in
event payloads and metadata blobs. -/
inductive Json where
  | s (v : String)
  | i (v : Int)
  | b (v : Bool)
  | null
  | arr (vs : List Json)
  | obj (kvs : List (String × Json))
deriving Repr, BEq

/-- Python dict .get: look up a key in an object, none when absent or not an
object. -/
def Json.get? : Json → String → Option Json
  | .obj kvs, k => (kvs.find? (fun kv => kv.1 == k)).map (fun kv => kv.2)
  | _, _ => none

/-- Python dict .get(key, default) where the stored value is a string. -/
def Json.getStrD (j : Json) (k : String) (d : String) : String :=
  match j.get? k with
  | some (.s v) => v
  | _ => d

/-- Python dict .get(key) for a string field, none when absent or non-string. -/
def Json.getStr? (j : Json) (k : String) : Option String :=
  match j.get? k with
  | some (.s v) => some v
  | _ => none

/-- Digit-by-digit accumulator for pyInt?. -/
def parseDigits : List Char → Nat → Option Nat
  | [], acc => some acc
  | c :: cs, acc =>
    if c.isDigit then parseDigits cs (acc * 10 + (c.toNat - '0'.toNat))
    else none

/-- Python int(s) on a string: optional leading minus followed by decimal
digits; anything else raises ValueError, modelled as none. -/
def pyInt? (s : String) : Option Int :=
  match s.data with
  | [] => none
  | ['-'] => none
  | '-' :: c :: cs => (parseDigits (c :: cs) 0).map (fun n => -(n : Int))
  | cs => (parseDigits cs 0).map (fun n => (n : Int))

/-- ConversationStatus enum from app/models/domain.py. -/
inductive ConversationStatus where
  | active | completed | failed | waiting
deriving Repr, BEq, DecidableEq

/-- MessageRole enum from app/models/domain.py. -/
inductive MessageRole where
  | user | assistant | system
deriving Repr, BEq, DecidableEq

/-- TaskType enum from app/models/domain.py. -/
inductive TaskType where
  | delegation | scheduled | triggered
deriving Repr, BEq, DecidableEq

/-- TaskStatus enum from app/models/domain.py. -/
inductive TaskStatus where
  | pending | running | completed | failed | blocked
deriving Repr, BEq, DecidableEq

/-- MessageStyle enum from app/adapters/base.py. -/
inductive MessageStyle where
  | conversational | comprehensive
deriving Repr, BEq, DecidableEq

/-- Python exception values that the embedded code can raise. -/
inductive PyError where
  | typeError (msg : String)
  | valueError (msg : String)
  | keyError (msg : String)
  | securityError (msg : String)
  | integrityError (msg : String)
  | runnerError (msg : String)
deriving Repr, BEq, DecidableEq

/-- Row of the conversations table (ConversationDB in app/database/models.py). -/
structure ConversationDB where
  id : Nat
  user_id : String
  created_at : Nat
  updated_at : Nat
  status : ConversationStatus
  pattern_type : String
  context_data : Json
  task_id : Option Nat
deriving Repr, BEq

/-- Row of the messages table (MessageDB in app/database/models.py). -/
structure MessageDB where
  id : Nat
  conversation_id : Nat
  role : MessageRole
  content : String
  created_at : Nat
  tool_calls : Option Json
  tool_results : Option Json
  adapter_name : Option String
  adapter_message_id : Option String
deriving Repr, BEq

/-- Row of the conversation_channel_adapters table
(ConversationChannelAdapterDB in app/database/models.py), which carries
UniqueConstraint("adapter_name", "thread_id", name="uq_adapter_thread"). -/
structure ConversationChannelAdapterDB where
  id : Nat
  conversation_id : Nat
  adapter_name : String
  thread_id : String
  adapter_metadata : Json
  created_at : Nat
deriving Repr, BEq

/-- Row of the tasks table (TaskDB in app/database/models.py). -/
structure TaskDB where
  id : Nat
  user_id : String
  conversation_id : Nat
  task_type : TaskType
  status : TaskStatus
  prompt : String
  agent_config : Json
  schedule_expression : Option String
  trigger_config : Option Json
  started_at : Option Nat
  completed_at : Option Nat
  error_message : Option String
  notification_channels : List String
  notification_email : Option String
  notification_slack_webhook : Option String
  notification_webhook_url : Option String
  is_active : Bool
  last_run_at : Option Nat
  next_run_at : Option Nat
  created_at : Nat
  updated_at : Nat
deriving Repr, BEq

/-- Session-visible database state: the four tables and a counter supplying
fresh row ids (standing in for uuid4 defaults). -/
structure DBState where
  conversations : List ConversationDB
  messages : List MessageDB
  mappings : List ConversationChannelAdapterDB
  tasks : List TaskDB
  nextId : Nat
deriving Repr, BEq

/-- db.get(TaskDB, task_id). -/
def DBState.get_task (st : DBState) (task_id : Nat) : Option TaskDB :=
  st.tasks.find? (fun t => t.id == task_id)

/-- db.get(ConversationDB, conversation_id). -/
def DBState.get_conversation (st : DBState) (conversation_id : Nat) :
    Option ConversationDB :=
  st.conversations.find? (fun c => c.id == conversation_id)

/-- In-place ORM update of one task row, keyed by id. -/
def DBState.set_task (st : DBState) (t : TaskDB) : DBState :=
  { st with tasks := st.tasks.map (fun u => if u.id == t.id then t else u) }

namespace ConversationManager

/-- ConversationManager.create_conversation: build a ConversationDB row with
defaults (fresh uuid, status active, created/updated now), add and commit. -/
def create_conversation (now : Nat) (user_id : String) (pattern_type : String)
    (context_data : Option Json) (st : DBState) : ConversationDB × DBState :=
  let conversation_db : ConversationDB :=
    { id := st.nextId
      user_id := user_id
      created_at := now
      updated_at := now
      status := .active
      pattern_type := pattern_type
      context_data := context_data.getD (.obj [])
      task_id := none }
  (conversation_db,
    { st with
      conversations := st.conversations ++ [conversation_db]
      nextId := st.nextId + 1 })

/-- ConversationManager.add_message: build a MessageDB row (fresh uuid,
created now; the adapter provenance columns are never set by this method),
add it, update the updated_at timestamp of the owning conversation when that
conversation exists, and commit. -/
def add_message (now : Nat) (conversation_id : Nat) (role : MessageRole)
    (content : String) (tool_calls : Option Json) (tool_results : Option Json)
    (st : DBState) : MessageDB × DBState :=
  let message_db : MessageDB :=
    { id := st.nextId
      conversation_id := conversation_id
      role := role
      content := content
      created_at := now
      tool_calls := tool_calls
      tool_results := tool_results
      adapter_name := none
      adapter_message_id := none }
  (message_db,
    { st with
      messages := st.messages ++ [message_db]
      conversations := st.conversations.map (fun c =>
        if c.id == conversation_id then { c with updated_at := now } else c)
      nextId := st.nextId + 1 })

/-- ConversationManager.get_messages: select messages of one conversation in
creation order (insertion order in this model). -/
def get_messages (conversation_id : Nat) (st : DBState) : List MessageDB :=
  st.messages.filter (fun m => m.conversation_id == conversation_id)

end ConversationManager

/-- Normalized inbound message (ReceivedMessage in app/adapters/models.py). -/
structure ReceivedMessage where
  content : String
  sender_id : String
  conversation_id : Option Nat
  thread_id : String
  metadata : Json
deriving Repr, BEq

/-- The slice of a channel adapter object that
ChannelAdapterManager.handle_incoming_event uses: its receive_message parser. -/
structure ChannelAdapterObj where
  receive_message : Json → Except PyError ReceivedMessage

namespace ChannelAdapterManager

/-- The adapter registry: name to adapter object. -/
def Registry := List (String × ChannelAdapterObj)

/-- ChannelAdapterManager.get_adapter: dict lookup, KeyError when absent. -/
def get_adapter (adapters : Registry) (name : String) :
    Except PyError ChannelAdapterObj :=
  match adapters.find? (fun kv => kv.1 == name) with
  | some kv => .ok kv.2
  | none => .error (.keyError name)

/-- ChannelAdapterManager._get_conversation_mapping: select the
conversation_id of the first mapping row matching (adapter_name, thread_id). -/
def get_conversation_mapping (adapter_name : String) (thread_id : String)
    (st : DBState) : Option Nat :=
  (st.mappings.find? (fun m =>
    m.adapter_name == adapter_name && m.thread_id == thread_id)).map
    (fun m => m.conversation_id)

/-- ChannelAdapterManager._store_conversation_mapping: add a
ConversationChannelAdapterDB row and flush. The flush enforces the declared
unique constraint uq_adapter_thread on (adapter_name, thread_id): inserting a
duplicate pair raises an IntegrityError. -/
def store_conversation_mapping (now : Nat) (conversation_id : Nat)
    (adapter_name : String) (thread_id : String) (metadata : Json)
    (st : DBState) : Except PyError DBState :=
  if st.mappings.any (fun m =>
      m.adapter_name == adapter_name && m.thread_id == thread_id) then
    .error (.integrityError "uq_adapter_thread")
  else
    .ok { st with
      mappings := st.mappings ++
        [{ id := st.nextId
           conversation_id := conversation_id
           adapter_name := adapter_name
           thread_id := thread_id
           adapter_metadata := metadata
           created_at := now }]
      nextId := st.nextId + 1 }

/-- Lines 90-118 of ChannelAdapterManager.handle_incoming_event: look up the
conversation mapped to (adapter_name, message.thread_id); when absent, create
a new conversation (pattern channel_adapter, context recording the adapter
name and initial thread id) and store the mapping. Returns the resolved
conversation id. -/
def resolve_conversation (now : Nat) (adapter_name : String)
    (message : ReceivedMessage) (st : DBState) : DBState × Except PyError Nat :=
  match get_conversation_mapping adapter_name message.thread_id st with
  | some conversation_id => (st, .ok conversation_id)
  | none =>
    let (conversation, st1) := ConversationManager.create_conversation now
      message.sender_id "channel_adapter"
      (some (.obj [("adapter_name", .s adapter_name),
                   ("initial_thread_id", .s message.thread_id)])) st
    match store_conversation_mapping now conversation.id adapter_name
        message.thread_id message.metadata st1 with
    | .error e => (st1, .error e)
    | .ok st2 => (st2, .ok conversation.id)

/-- ChannelAdapterManager.handle_incoming_event: fetch the adapter, parse the
event, resolve or create the conversation and mapping, then add the user
message. The source invokes conversation_manager.add_message with keyword
arguments adapter_name and adapter_message_id that
ConversationManager.add_message does not declare, so that final call raises a
TypeError before producing any effect. -/
def handle_incoming_event (now : Nat) (adapters : Registry)
    (adapter_name : String) (event_data : Json) (st : DBState) :
    DBState × Except PyError (Nat × String) :=
  match get_adapter adapters adapter_name with
  | .error e => (st, .error e)
  | .ok adapter =>
    match adapter.receive_message event_data with
    | .error e => (st, .error e)
    | .ok message =>
      match resolve_conversation now adapter_name message st with
      | (st1, .error e) => (st1, .error e)
      | (st1, .ok _conversation_id) =>
        (st1, .error (.typeError
          "add_message got an unexpected keyword argument adapter_name"))

end ChannelAdapterManager

/-- Capability descriptor of a channel adapter (AdapterCapabilities in
app/adapters/base.py). -/
structure AdapterCapabilities where
  supports_streaming : Bool := false
  supports_threading : Bool := true
  supports_rich_formatting : Bool := false
  supports_interactive_elements : Bool := false
  supports_reactions : Bool := false
  supports_message_editing : Bool := false
  supports_attachments : Bool := false
  preferred_message_style : MessageStyle := .conversational
  max_message_length : Option Nat := none
deriving Repr, BEq, DecidableEq

/-- Capability descriptor of a runner (RunnerCapabilities in
app/runners/base.py). -/
structure RunnerCapabilities where
  supports_streaming : Bool := true
  supports_tool_use : Bool := false
  supports_vision : Bool := false
  supports_system_prompt_override : Bool := true
  context_window : Option Nat := none
  max_output_tokens : Option Nat := none
  supports_conversation_history : Bool := true
  supports_async_execution : Bool := true
deriving Repr, BEq, DecidableEq

namespace EmailChannelAdapter

/-- EmailChannelAdapter.capabilities: no streaming, no interactive elements,
no reactions, comprehensive style. -/
def capabilities : AdapterCapabilities :=
  { supports_streaming := false
    supports_threading := true
    supports_rich_formatting := true
    supports_interactive_elements := false
    supports_reactions := false
    supports_message_editing := false
    supports_attachments := true
    preferred_message_style := .comprehensive
    max_message_length := none }

/-- EmailChannelAdapter.receive_message: parse a Mailgun webhook payload.
Never raises; every field falls back to a default. -/
def receive_message (mailgun_event : Json) : ReceivedMessage :=
  let message_id := mailgun_event.getStrD "message-id" ""
  let body_plain := mailgun_event.getStrD "body-plain" ""
  let body_html := mailgun_event.getStrD "body-html" ""
  let content := if !body_plain.isEmpty then body_plain else body_html
  let in_reply_to := mailgun_event.getStr? "In-Reply-To"
  { content := content
    sender_id := mailgun_event.getStrD "sender" ""
    conversation_id := none
    thread_id :=
      match in_reply_to with
      | some s => if s.isEmpty then message_id else s
      | none => message_id
    metadata := .obj
      [("message_id", .s message_id),
       ("in_reply_to",
         match in_reply_to with
         | some s => .s s
         | none => .null),
       ("subject", .s (mailgun_event.getStrD "subject" "")),
       ("from_addr", .s (mailgun_event.getStrD "from" "")),
       ("to_addr", .s (mailgun_event.getStrD "recipient" "")),
       ("cc",
         match mailgun_event.getStr? "Cc" with
         | some s =>
           if s.isEmpty then .arr [] else .arr ((s.splitOn ",").map .s)
         | none => .arr []),
       ("attachments", (mailgun_event.get? "attachments").getD (.arr []))] }

/-- EmailChannelAdapter.verify_request: Mailgun webhook signature check.
Requires timestamp, token and signature to be present and truthy, rejects a
timestamp strictly older than 900 seconds (one-sided: only the past
direction is checked), recomputes the HMAC-SHA256 of timestamp ++ token
under the Mailgun API key and compares in constant time. -/
def verify_request (hmacSha256 : String → String → String) (now : Int)
    (mailgun_api_key : String) (request_data : Json) : Bool :=
  match request_data.getStr? "timestamp", request_data.getStr? "token",
      request_data.getStr? "signature" with
  | some timestamp, some token, some signature =>
    if timestamp.isEmpty || token.isEmpty || signature.isEmpty then false
    else
      match pyInt? timestamp with
      | none => false
      | some timestamp_int =>
        if now - timestamp_int > 900 then false
        else
          let expected_signature := hmacSha256 mailgun_api_key (timestamp ++ token)
          signature == expected_signature
  | _, _, _ => false

/-- The email adapter as seen by the manager registry. -/
def adapter : ChannelAdapterObj :=
  { receive_message := fun ev => .ok (receive_message ev) }

end EmailChannelAdapter

namespace SlackChannelAdapter

/-- SlackChannelAdapter.capabilities: full-featured. -/
def capabilities : AdapterCapabilities :=
  { supports_streaming := true
    supports_threading := true
    supports_rich_formatting := true
    supports_interactive_elements := true
    supports_reactions := true
    supports_message_editing := true
    supports_attachments := true
    preferred_message_style := .conversational
    max_message_length := some 4000 }

/-- SlackChannelAdapter._parse_app_mention. -/
def parse_app_mention (event_data : Json) : ReceivedMessage :=
  { content := ((event_data.getStrD "text" "").replace "<@BOT_ID>" "").trim
    sender_id := event_data.getStrD "user" ""
    conversation_id := none
    thread_id := event_data.getStrD "thread_ts" (event_data.getStrD "ts" "")
    metadata := .obj
      [("channel", .s (event_data.getStrD "channel" "")),
       ("ts", .s (event_data.getStrD "ts" "")),
       ("thread_ts",
         match event_data.getStr? "thread_ts" with
         | some s => .s s
         | none => .null),
       ("event_type", .s "app_mention")] }

/-- SlackChannelAdapter._parse_message. -/
def parse_message (event_data : Json) : ReceivedMessage :=
  { content := event_data.getStrD "text" ""
    sender_id := event_data.getStrD "user" ""
    conversation_id := none
    thread_id := event_data.getStrD "thread_ts" (event_data.getStrD "ts" "")
    metadata := .obj
      [("channel", .s (event_data.getStrD "channel" "")),
       ("ts", .s (event_data.getStrD "ts" "")),
       ("thread_ts",
         match event_data.getStr? "thread_ts" with
         | some s => .s s
         | none => .null),
       ("event_type", .s "message")] }

/-- SlackChannelAdapter.receive_message: dispatch on the outer event type
(must be event_callback) and the inner event type (app_mention or message),
raising ValueError otherwise. -/
def receive_message (event : Json) : Except PyError ReceivedMessage :=
  if event.getStrD "type" "" != "event_callback" then
    .error (.valueError "Unexpected event type")
  else
    let event_data := (event.get? "event").getD (.obj [])
    if event_data.getStrD "type" "" == "app_mention" then
      .ok (parse_app_mention event_data)
    else if event_data.getStrD "type" "" == "message" then
      .ok (parse_message event_data)
    else
      .error (.valueError "Unsupported event type")

/-- SlackChannelAdapter.verify_request: reject when the timestamp header does
not parse or differs from now by more than 300 seconds in either direction,
then recompute the v0 signature over "v0:timestamp:body" under the signing
secret and compare in constant time. The body is the raw request string as
passed by the endpoints. -/
def verify_request (hmacSha256 : String → String → String) (now : Int)
    (signing_secret : String) (request : Json) : Bool :=
  let headers := (request.get? "headers").getD (.obj [])
  let slack_signature := headers.getStrD "X-Slack-Request-Signature" ""
  let slack_timestamp := headers.getStrD "X-Slack-Request-Timestamp" ""
  match pyInt? slack_timestamp with
  | none => false
  | some request_time =>
    if (now - request_time).natAbs > 300 then false
    else
      let body := request.getStrD "body" ""
      let sig_basestring := "v0:" ++ slack_timestamp ++ ":" ++ body
      let my_signature := "v0=" ++ hmacSha256 signing_secret sig_basestring
      my_signature == slack_signature

/-- InteractionResponse fields extracted by handle_interaction. -/
structure InteractionResponse where
  conversation_id : Nat
  action_id : String
  value : String
  user_id : String
deriving Repr, BEq, DecidableEq

/-- SlackChannelAdapter.handle_interaction: take the first entry of the
actions list (ValueError when empty or absent) and build an
InteractionResponse. The conversation id comes from _extract_conversation_id,
which in the source returns a fresh random uuid4 placeholder, modelled by the
explicit fresh_uuid argument. -/
def handle_interaction (fresh_uuid : Nat) (interaction_event : Json) :
    Except PyError InteractionResponse :=
  match interaction_event.get? "actions" with
  | some (.arr (action :: _)) =>
    .ok { conversation_id := fresh_uuid
          action_id := action.getStrD "action_id" ""
          value := action.getStrD "value" ""
          user_id :=
            ((interaction_event.get? "user").getD (.obj [])).getStrD "id" "" }
  | _ => .error (.valueError "No actions in interaction event")

/-- The slack adapter as seen by the manager registry. -/
def adapter : ChannelAdapterObj :=
  { receive_message := receive_message }

end SlackChannelAdapter

/-- The slice of app.config.Settings the endpoints consult. -/
structure Settings where
  mailgun_api_key : Option String
  mailgun_domain : Option String
deriving Repr, BEq, DecidableEq

/-- Python truthiness of an optional string: None and the empty string are
falsy. -/
def truthyStr : Option String → Bool
  | none => false
  | some s => !s.isEmpty

/-- Outcome of an HTTP endpoint: a 200 acknowledgment with a JSON body, an
HTTPException with a status code, or an exception escaping the handler
(surfacing as a 5xx server error). -/
inductive Response where
  | ack (body : Json)
  | httpError (status : Nat) (detail : String)
  | uncaught (e : PyError)
deriving Repr, BEq

/-- A response is a 2xx-equivalent acknowledgment exactly when it is an ack. -/
def Response.is2xx : Response → Bool
  | .ack _ => true
  | _ => false

namespace Api

/-- POST /channel-adapters/email/webhook (email_webhook in
app/api/channel_adapters.py): 503 when Mailgun is not configured; otherwise
hand the form payload to ChannelAdapterManager.handle_incoming_event,
acknowledging with 200 on success, on SecurityError and on any other
exception. No request-signature verification happens anywhere on this path:
the endpoint never calls EmailChannelAdapter.verify_request before (or
after) handing the event over for state mutation. -/
def email_webhook (now : Nat) (settings : Settings)
    (adapters : ChannelAdapterManager.Registry) (event_data : Json)
    (st : DBState) : DBState × Response :=
  if !truthyStr settings.mailgun_api_key || !truthyStr settings.mailgun_domain then
    (st, .httpError 503 "Email service not configured")
  else
    let message_id := event_data.getStrD "message-id" "unknown"
    match ChannelAdapterManager.handle_incoming_event now adapters "email"
        event_data st with
    | (st1, .ok (conversation_id, _thread_id)) =>
      (st1, .ack (.obj [("status", .s "ok"), ("message_id", .s message_id),
        ("conversation_id", .s (toString conversation_id))]))
    | (st1, .error (.securityError _)) =>
      (st1, .ack (.obj [("status", .s "error"),
        ("message", .s "signature verification failed")]))
    | (st1, .error _) =>
      (st1, .ack (.obj [("status", .s "error")]))

/-- POST /channel-adapters/slack/events (slack_events in
app/api/channel_adapters.py): answer URL-verification challenges, 500 when
the slack adapter is unregistered, verify the request signature and answer
401 when it fails, then hand the event over; SecurityError maps to 401,
ValueError to 400, and any other exception escapes the handler. -/
def slack_events (now : Nat) (hmacSha256 : String → String → String)
    (signing_secret : String) (adapters : ChannelAdapterManager.Registry)
    (body : Json) (headers : Json) (raw_body : String) (st : DBState) :
    DBState × Response :=
  if body.getStrD "type" "" == "url_verification" then
    (st, .ack (.obj [("challenge", (body.get? "challenge").getD .null)]))
  else
    match ChannelAdapterManager.get_adapter adapters "slack" with
    | .error _ => (st, .httpError 500 "Slack adapter not configured")
    | .ok _adapter =>
      let request_data : Json := .obj [("headers", headers), ("body", .s raw_body)]
      if !SlackChannelAdapter.verify_request hmacSha256 now signing_secret
          request_data then
        (st, .httpError 401 "Invalid Slack signature")
      else
        match ChannelAdapterManager.handle_incoming_event now adapters "slack"
            body st with
        | (st1, .ok (conversation_id, thread_id)) =>
          (st1, .ack (.obj [("ok", .b true),
            ("conversation_id", .s (toString conversation_id)),
            ("thread_id", .s thread_id)]))
        | (st1, .error (.securityError m)) => (st1, .httpError 401 m)
        | (st1, .error (.valueError m)) => (st1, .httpError 400 m)
        | (st1, .error e) => (st1, .uncaught e)

/-- POST /channel-adapters/slack/interactions (slack_interactions in
app/api/channel_adapters.py): 500 when the slack adapter is unregistered,
401 when signature verification fails, then handle_interaction and store a
conversation mapping keyed by the payload trigger_id; ValueError maps to
400, and any other exception (notably the IntegrityError from a duplicate
mapping) escapes the handler. -/
def slack_interactions (now : Nat) (hmacSha256 : String → String → String)
    (signing_secret : String) (adapters : ChannelAdapterManager.Registry)
    (fresh_uuid : Nat) (payload : Json) (headers : Json) (raw_body : String)
    (st : DBState) : DBState × Response :=
  match ChannelAdapterManager.get_adapter adapters "slack" with
  | .error _ => (st, .httpError 500 "Slack adapter not configured")
  | .ok _adapter =>
    let request_data : Json := .obj [("headers", headers), ("body", .s raw_body)]
    if !SlackChannelAdapter.verify_request hmacSha256 now signing_secret
        request_data then
      (st, .httpError 401 "Invalid Slack signature")
    else
      match SlackChannelAdapter.handle_interaction fresh_uuid payload with
      | .error (.valueError m) => (st, .httpError 400 m)
      | .error e => (st, .uncaught e)
      | .ok interaction_response =>
        let trigger_id := payload.getStrD "trigger_id" ""
        match ChannelAdapterManager.store_conversation_mapping now
            interaction_response.conversation_id "slack" trigger_id payload st with
        | .error e => (st, .uncaught e)
        | .ok st1 =>
          (st1, .ack (.obj [("ok", .b true),
            ("action_id", .s interaction_response.action_id)]))

end Api

/-- NotificationConfig from app/models/domain.py, with channel enum values
kept as the strings stored in the task row. -/
structure NotificationConfig where
  channels : List String := []
  email_address : Option String := none
  slack_webhook_url : Option String := none
  webhook_url : Option String := none
deriving Repr, BEq, DecidableEq

/-- Observable notification fan-out of one task execution:
notify_task_complete or notify_task_failed. -/
inductive NotifyEvent where
  | complete (task_id : Nat) (result : String)
  | failed (task_id : Nat) (error : String)
deriving Repr, BEq, DecidableEq

namespace TaskManager

/-- TaskManager._get_pattern_type. -/
def get_pattern_type (task_type : TaskType) : String :=
  match task_type with
  | .delegation => "delegation"
  | .scheduled => "scheduled"
  | .triggered => "triggered"

/-- TaskManager.create_task: create the conversation first (pattern tag from
the task type), then the task row with status pending and is_active true,
then point the conversation at the task. -/
def create_task (now : Nat) (user_id : String) (task_type : TaskType)
    (prompt : String) (schedule_expression : Option String)
    (trigger_config : Option Json)
    (notification_config : Option NotificationConfig)
    (agent_config : Option Json) (st : DBState) : TaskDB × DBState :=
  let pattern_type := get_pattern_type task_type
  let (conversation, st1) :=
    ConversationManager.create_conversation now user_id pattern_type none st
  let task_db : TaskDB :=
    { id := st1.nextId
      user_id := user_id
      conversation_id := conversation.id
      task_type := task_type
      status := .pending
      prompt := prompt
      agent_config := agent_config.getD (.obj [])
      schedule_expression := schedule_expression
      trigger_config := some (trigger_config.getD (.obj []))
      started_at := none
      completed_at := none
      error_message := none
      notification_channels :=
        (notification_config.map (fun c => c.channels)).getD []
      notification_email :=
        (notification_config.map (fun c => c.email_address)).getD none
      notification_slack_webhook :=
        (notification_config.map (fun c => c.slack_webhook_url)).getD none
      notification_webhook_url :=
        (notification_config.map (fun c => c.webhook_url)).getD none
      is_active := true
      last_run_at := none
      next_run_at := none
      created_at := now
      updated_at := now }
  let st2 := { st1 with tasks := st1.tasks ++ [task_db], nextId := st1.nextId + 1 }
  let st3 := { st2 with conversations := st2.conversations.map (fun c =>
    if c.id == conversation.id then { c with task_id := some task_db.id } else c) }
  (task_db, st3)

/-- TaskManager.execute_task: return silently when the task id is unknown or
the task is inactive (is_active false is the ONLY activity gate: status is
not consulted); otherwise stamp status running and started_at, run the
try-block (agent creation plus AgentExecutor.execute_async, abstracted as
the runStep state transformer since the runner is an external collaborator),
and transition to completed (stamping completed_at and last_run_at, clearing
the error) with a completion notification, or on any exception to failed
(stamping completed_at, recording the error) with a failure notification.
The returned Bool records whether the try-block ran. -/
def execute_task (now : Nat) (task_id : Nat)
    (runStep : DBState → DBState × Except String String) (st : DBState) :
    DBState × Bool × List NotifyEvent :=
  match st.get_task task_id with
  | none => (st, false, [])
  | some task_db =>
    if !task_db.is_active then (st, false, [])
    else
      let running := { task_db with status := .running, started_at := some now }
      let st1 := st.set_task running
      let (st2, outcome) := runStep st1
      match outcome with
      | .ok result =>
        let done := { running with
          status := .completed
          completed_at := some now
          last_run_at := some now
          error_message := none }
        (st2.set_task done, true, [.complete task_id result])
      | .error e =>
        let failed := { running with
          status := .failed
          completed_at := some now
          error_message := some e }
        (st2.set_task failed, true, [.failed task_id e])

/-- TaskManager.disable_task: ValueError when the task id is unknown,
otherwise set is_active to false and stamp updated_at. It performs no
scheduler interaction whatsoever. -/
def disable_task (now : Nat) (task_id : Nat) (st : DBState) :
    Except PyError DBState :=
  match st.get_task task_id with
  | none => .error (.valueError "Task not found")
  | some task_db =>
    .ok (st.set_task { task_db with is_active := false, updated_at := now })

end TaskManager

/-- State of the APScheduler instance in app/workers/scheduler.py: the
registered jobs, as pairs of job id and cron expression. -/
structure SchedulerState where
  jobs : List (String × String)
deriving Repr, BEq, DecidableEq

namespace Scheduler

/-- The job id used for a task: "task_" followed by the task id. -/
def job_id (task_id : Nat) : String := "task_" ++ toString task_id

/-- schedule_task in app/workers/scheduler.py: remove any existing job with
this id, then add the cron job. -/
def schedule_task (task_id : Nat) (cron_expression : String)
    (sch : SchedulerState) : SchedulerState :=
  { jobs := (sch.jobs.filter (fun j => j.1 != job_id task_id)) ++
      [(job_id task_id, cron_expression)] }

/-- unschedule_task in app/workers/scheduler.py: remove the job for this task
when present. This function has no caller anywhere in the repository. -/
def unschedule_task (task_id : Nat) (sch : SchedulerState) : SchedulerState :=
  { jobs := sch.jobs.filter (fun j => j.1 != job_id task_id) }

/-- execute_scheduled_task in app/workers/scheduler.py: the scheduler tick
body for a registered job; opens a session and calls
TaskManager.execute_task. -/
def execute_scheduled_task (now : Nat) (task_id : Nat)
    (runStep : DBState → DBState × Except String String) (st : DBState) :
    DBState × Bool × List NotifyEvent :=
  TaskManager.execute_task now task_id runStep st

end Scheduler

namespace Api

/-- POST /tasks/task_id/disable (disable_task in app/api/tasks.py): delegate
to TaskManager.disable_task (404 on ValueError). The scheduler state is
passed through untouched: the route never calls unschedule_task. -/
def disable_task (now : Nat) (task_id : Nat) (st : DBState)
    (sch : SchedulerState) : (Except PyError DBState) × SchedulerState :=
  (TaskManager.disable_task now task_id st, sch)

end Api

/-- A channel adapter instance as the orchestrator sees it: its capability
descriptor, which optional-facet mixins the concrete class implements (the
isinstance checks in the source), and the adapter-native message id that its
base send operation returns for a given content. -/
structure AdapterInstance where
  capabilities : AdapterCapabilities
  streaming_capable : Bool
  reaction_capable : Bool
  send_message_id : String → String

/-- A runner instance as the orchestrator sees it: its capability descriptor,
the chunk sequence its streaming path yields, and the outcome of its
non-streaming path. -/
structure RunnerInstance where
  capabilities : RunnerCapabilities
  stream : List String
  execute_non_streaming : Except String String

/-- One outbound call the orchestrator issues against the adapter. -/
inductive AdapterCall where
  | send_message (message : String) (thread_id : Option String)
      (metadata : Option Json)
  | stream_message_chunk (chunk : String)
  | add_reaction (message_id : String) (reaction : String)
deriving Repr, BEq

/-- Is this call an invocation of the streaming-append facet? -/
def AdapterCall.isStreamChunk : AdapterCall → Bool
  | .stream_message_chunk _ => true
  | _ => false

/-- Is this call an invocation of the base send operation? -/
def AdapterCall.isSend : AdapterCall → Bool
  | .send_message _ _ _ => true
  | _ => false

namespace AgentExecutor

/-- The streaming loop of execute_with_channel_context: accumulate each chunk
into the full response; the first chunk goes out through the base send
operation (recording the returned message id), every later chunk through the
streaming-append facet keyed to that id. -/
def stream_loop (adapter : AdapterInstance) (thread_id : Option String)
    (adapter_metadata : Option Json) (chunks : List String)
    (full_response : String) (message_id : Option String)
    (calls : List AdapterCall) :
    String × Option String × List AdapterCall :=
  match chunks with
  | [] => (full_response, message_id, calls)
  | chunk :: rest =>
    let full_response := full_response ++ chunk
    match message_id with
    | none =>
      stream_loop adapter thread_id adapter_metadata rest full_response
        (some (adapter.send_message_id chunk))
        (calls ++ [.send_message chunk thread_id adapter_metadata])
    | some mid =>
      stream_loop adapter thread_id adapter_metadata rest full_response
        (some mid) (calls ++ [.stream_message_chunk chunk])

/-- AgentExecutor.execute_with_channel_context: persist the user message,
load history, then dispatch on capabilities. The streaming path is taken
exactly when the adapter descriptor advertises streaming AND the runner
descriptor advertises streaming AND the adapter class implements the
streaming facet; it runs the stream loop and, when the adapter implements
reactions and a truthy message id was established, attaches a completion
reaction. Otherwise the non-streaming path runs the runner once (an
execution error propagates) and issues a single base send with the complete
result. In both cases the assembled response is persisted as one assistant
message afterwards. -/
def execute_with_channel_context (now : Nat) (runner : RunnerInstance)
    (adapter : AdapterInstance) (conversation_id : Nat) (user_message : String)
    (thread_id : Option String) (adapter_metadata : Option Json)
    (st : DBState) : DBState × List AdapterCall × Except String String :=
  let caps := adapter.capabilities
  let (_, st1) := ConversationManager.add_message now conversation_id .user
    user_message none none st
  if caps.supports_streaming && runner.capabilities.supports_streaming &&
      adapter.streaming_capable then
    let (full_response, message_id, calls) :=
      stream_loop adapter thread_id adapter_metadata runner.stream "" none []
    let calls :=
      match message_id with
      | some mid =>
        if adapter.reaction_capable && !mid.isEmpty then
          calls ++ [.add_reaction mid "white_check_mark"]
        else calls
      | none => calls
    let (_, st2) := ConversationManager.add_message now conversation_id
      .assistant full_response none none st1
    (st2, calls, .ok full_response)
  else
    match runner.execute_non_streaming with
    | .error e => (st1, [], .error e)
    | .ok content =>
      let calls := [AdapterCall.send_message content thread_id adapter_metadata]
      let (_, st2) := ConversationManager.add_message now conversation_id
        .assistant content none none st1
      (st2, calls, .ok content)

end AgentExecutor

/-! Concrete fixtures used by witnesses and counterexamples. -/

/-- A stand-in for the external HMAC-SHA256 primitive, injective on the
inputs used in the fixtures. -/
def hmacTest : String → String → String :=
  fun key msg => "hmac:" ++ key ++ ":" ++ msg

/-- A fresh database. -/
def emptyDB : DBState :=
  { conversations := [], messages := [], mappings := [], tasks := [], nextId := 0 }

/-- The adapter registry as initialize_adapters builds it when both channels
are configured. -/
def registryFixture : ChannelAdapterManager.Registry :=
  [("email", EmailChannelAdapter.adapter), ("slack", SlackChannelAdapter.adapter)]

/-- Settings with Mailgun configured. -/
def configuredSettings : Settings :=
  { mailgun_api_key := some "key-123", mailgun_domain := some "mg.example" }

/-- A Mailgun webhook payload carrying no signature fields at all: signature
verification would reject it under every key and clock. -/
def forgedEmailEvent : Json :=
  .obj [("body-plain", .s "hello"), ("sender", .s "a@b.example"),
        ("message-id", .s "m1")]

/-- A second inbound email event for the same thread (same message-id). -/
def secondEmailEvent : Json :=
  .obj [("body-plain", .s "again"), ("sender", .s "a@b.example"),
        ("message-id", .s "m1")]

/-- The conversation row linked to the fixture task. -/
def convFixture : ConversationDB :=
  { id := 0, user_id := "u", created_at := 1, updated_at := 3,
    status := .active, pattern_type := "scheduled", context_data := .obj [],
    task_id := some 1 }

/-- A scheduled task that has already completed but is still active. -/
def taskFixture : TaskDB :=
  { id := 1, user_id := "u", conversation_id := 0, task_type := .scheduled,
    status := .completed, prompt := "daily report",
    agent_config := .obj [], schedule_expression := some "0 9 * * *",
    trigger_config := some (.obj []), started_at := none,
    completed_at := some 3, error_message := none,
    notification_channels := [], notification_email := none,
    notification_slack_webhook := none, notification_webhook_url := none,
    is_active := true, last_run_at := some 3, next_run_at := none,
    created_at := 1, updated_at := 3 }

/-- Database holding the fixture conversation and task. -/
def taskDBFixture : DBState :=
  { conversations := [convFixture], messages := [], mappings := [],
    tasks := [taskFixture], nextId := 2 }

/-- Scheduler with the fixture task registered. -/
def schedFixture : SchedulerState :=
  Scheduler.schedule_task 1 "0 9 * * *" { jobs := [] }

/-- A Slack webhook request as slack_events assembles it for verification. -/
def mkSlackRequest (signature timestamp body : String) : Json :=
  .obj [("headers",
          .obj [("X-Slack-Request-Signature", .s signature),
                ("X-Slack-Request-Timestamp", .s timestamp)]),
        ("body", .s body)]

/-- A Mailgun webhook payload carrying the three signature fields. -/
def mkEmailRequest (timestamp token signature : String) : Json :=
  .obj [("timestamp", .s timestamp), ("token", .s token),
        ("signature", .s signature)]

/-- An adapter that does not advertise streaming (email capabilities) and
does not implement the streaming or reaction facets. -/
def emailAdapterInstance : AdapterInstance :=
  { capabilities := EmailChannelAdapter.capabilities
    streaming_capable := false
    reaction_capable := false
    send_message_id := fun _ => "msg-1" }

/-- A runner that advertises and supports streaming. -/
def streamingRunner : RunnerInstance :=
  { capabilities := { supports_streaming := true }
    stream := ["Hel", "lo"]
    execute_non_streaming := .ok "Hello" }

/-- The mapping-store uniqueness invariant: at most one row per
(adapter_name, thread_id) pair. -/
def MappingUniq (st : DBState) : Prop :=
  st.mappings.Pairwise (fun a b =>
    ¬(a.adapter_name = b.adapter_name ∧ a.thread_id = b.thread_id))

/-- Settings with Mailgun not configured. -/
def unconfiguredSettings : Settings :=
  { mailgun_api_key := none, mailgun_domain := none }

/-- A well-formed slack app_mention event callback. -/
def slackEventBody : Json :=
  .obj [("type", .s "event_callback"),
        ("event", .obj [("type", .s "app_mention"), ("text", .s "hi"),
                        ("user", .s "U1"), ("ts", .s "111.22"),
                        ("channel", .s "C1")])]

/-- Slack headers carrying a fresh timestamp but a wrong signature. -/
def badSlackHeaders : Json :=
  .obj [("X-Slack-Request-Signature", .s "bad"),
        ("X-Slack-Request-Timestamp", .s "0")]

/-- Database holding two conversations and one message in the second. -/
def twoConvDB : DBState :=
  { conversations := [convFixture, { convFixture with id := 5, user_id := "v" }],
    messages := [{ id := 3, conversation_id := 5, role := .user, content := "one",
                   created_at := 2, tool_calls := none, tool_results := none,
                   adapter_name := none, adapter_message_id := none }],
    mappings := [], tasks := [], nextId := 6 }

/-- Database holding a disabled pending task. -/
def inactiveTaskDB : DBState :=
  { conversations := [convFixture], messages := [], mappings := [],
    tasks := [{ taskFixture with status := .pending, is_active := false }],
    nextId := 2 }

/-! Theorems. -/

/-- List-level helper: replacing, by id, the task found by find? makes find?
return the replacement. -/
theorem find?_map_setter (tid : Nat) (t' : TaskDB) :
    ∀ (l : List TaskDB) (t : TaskDB),
      l.find? (fun u => u.id == tid) = some t → t'.id = t.id →
      (l.map (fun u => if u.id == t'.id then t' else u)).find?
        (fun u => u.id == tid) = some t' := by
  intro l
  induction l with
  | nil => intro t h _; simp at h
  | cons u us ih =>
    intro t h hid
    cases hu : (u.id == tid) with
    | true =>
      simp only [List.find?_cons, hu] at h
      injection h with h
      subst h
      have hhead : (u.id == t'.id) = true := by
        rw [hid]; exact beq_self_eq_true u.id
      have htid : (t'.id == tid) = true := by rw [hid]; exact hu
      rw [List.map_cons, List.find?_cons, if_pos hhead, htid]
    | false =>
      simp only [List.find?_cons, hu] at h
      have htid0 := List.find?_some h
      have htid : t.id = tid := eq_of_beq htid0
      have hne : (u.id == t'.id) = false := by
        rw [hid, htid]
        exact hu
      rw [List.map_cons, List.find?_cons, if_neg (by simp [hne]), hu]
      exact ih t h hid

/-- Setting a task whose id matches the one found makes get_task return it. -/
theorem get_task_set_task (st : DBState) (t t' : TaskDB) (task_id : Nat)
    (ht : st.get_task task_id = some t) (hid : t'.id = t.id) :
    (st.set_task t').get_task task_id = some t' :=
  find?_map_setter task_id t' st.tasks t ht hid

/-- C9: calling execute_task with a task id that has no corresponding task in
the store returns normally: the state is unchanged (no task, conversation or
message state is created or modified), the execution step is never run, and
no notification fires. -/
theorem execute_task_unknown_task_noop (now task_id : Nat)
    (runStep : DBState → DBState × Except String String) (st : DBState)
    (h : st.get_task task_id = none) :
    TaskManager.execute_task now task_id runStep st = (st, false, []) := by
  simp [TaskManager.execute_task, h]

/-- Witness for C9 at the fixture database and the absent task id 42. -/
theorem execute_task_unknown_task_noop_witness :
    TaskManager.execute_task 9 42 (fun s => (s, .ok "r")) taskDBFixture =
      (taskDBFixture, false, []) :=
  execute_task_unknown_task_noop 9 42 _ taskDBFixture rfl

/-- C5 counterexample: the fixture task has status completed and is_active
true; execute_task runs the execution step anyway, restamps started_at and
fires a completion notification, so calling execute on an
already-completed task is not a no-op. -/
theorem execute_task_reruns_completed_task :
    (TaskManager.execute_task 9 1 (fun s => (s, .ok "done")) taskDBFixture).2.1 = true ∧
    (TaskManager.execute_task 9 1 (fun s => (s, .ok "done")) taskDBFixture).2.2 =
      [NotifyEvent.complete 1 "done"] ∧
    (((TaskManager.execute_task 9 1 (fun s => (s, .ok "done")) taskDBFixture).1.get_task 1).map
      (fun t => (t.status, t.started_at)) = some (TaskStatus.completed, some 9)) ∧
    ((taskDBFixture.get_task 1).map (fun t => (t.status, t.started_at)) =
      some (TaskStatus.completed, none)) :=
  ⟨rfl, rfl, rfl, rfl⟩

/-- C5 (amended): execute_task is a no-op exactly when the task id is unknown
or the task's is_active flag is false; a completed or failed task whose
is_active flag is still true is re-executed (the execution step runs). -/
theorem execute_task_noop_iff_inactive (now task_id : Nat)
    (runStep : DBState → DBState × Except String String) (st : DBState) :
    ((st.get_task task_id = none ∨
      (∃ t, st.get_task task_id = some t ∧ t.is_active = false)) →
      TaskManager.execute_task now task_id runStep st = (st, false, [])) ∧
    (∀ t, st.get_task task_id = some t → t.is_active = true →
      (TaskManager.execute_task now task_id runStep st).2.1 = true) := by
  constructor
  · rintro (h | ⟨t, ht, hia⟩)
    · simp [TaskManager.execute_task, h]
    · simp [TaskManager.execute_task, ht, hia]
  · intro t ht hact
    simp only [TaskManager.execute_task, ht, hact, Bool.not_true]
    rw [if_neg Bool.false_ne_true]
    split <;> rfl

/-- Witness for the amended C5: a disabled pending task is skipped, and the
completed-but-active fixture task is re-executed. -/
theorem execute_task_noop_iff_inactive_witness :
    TaskManager.execute_task 9 1 (fun s => (s, .ok "r")) inactiveTaskDB =
      (inactiveTaskDB, false, []) ∧
    (TaskManager.execute_task 9 1 (fun s => (s, .ok "r")) taskDBFixture).2.1 = true :=
  ⟨(execute_task_noop_iff_inactive 9 1 _ inactiveTaskDB).1
      (Or.inr ⟨_, rfl, rfl⟩),
   (execute_task_noop_iff_inactive 9 1 _ taskDBFixture).2 taskFixture rfl rfl⟩

/-- C7 counterexample: after disabling the scheduled fixture task, its
schedule registration is still standing (the jobs list is untouched, because
neither TaskManager.disable_task nor the disable route ever calls
unschedule_task), even though is_active has been set to false. -/
theorem disable_task_keeps_schedule_registration :
    (Api.disable_task 9 1 taskDBFixture schedFixture).2.jobs =
      [(Scheduler.job_id 1, "0 9 * * *")] ∧
    ∃ st1, TaskManager.disable_task 9 1 taskDBFixture = .ok st1 ∧
      (st1.get_task 1).map (fun t => t.is_active) = some false :=
  ⟨rfl, ⟨_, rfl, rfl⟩⟩

/-- C7 (amended): disable_task sets is_active to false and stamps updated_at
but does not remove the schedule registration; subsequent scheduler ticks
still call execute_task, which then returns without executing because the
task is inactive. -/
theorem disable_task_deactivates_without_unscheduling (now task_id : Nat)
    (st : DBState) (t : TaskDB) (ht : st.get_task task_id = some t) :
    (∀ sch, (Api.disable_task now task_id st sch).2 = sch) ∧
    (TaskManager.disable_task now task_id st =
      .ok (st.set_task { t with is_active := false, updated_at := now })) ∧
    (∀ now2 runStep,
      Scheduler.execute_scheduled_task now2 task_id runStep
          (st.set_task { t with is_active := false, updated_at := now }) =
        (st.set_task { t with is_active := false, updated_at := now },
         false, [])) := by
  refine ⟨fun sch => rfl, ?_, ?_⟩
  · simp [TaskManager.disable_task, ht]
  · intro now2 runStep
    have hg : (st.set_task { t with is_active := false, updated_at := now }).get_task
        task_id = some { t with is_active := false, updated_at := now } :=
      get_task_set_task st t _ task_id ht rfl
    simp [Scheduler.execute_scheduled_task, TaskManager.execute_task, hg]

/-- Witness for the amended C7 at the fixture task. -/
theorem disable_task_deactivates_without_unscheduling_witness :
    (Api.disable_task 9 1 taskDBFixture schedFixture).2 = schedFixture ∧
    TaskManager.disable_task 9 1 taskDBFixture =
      .ok (taskDBFixture.set_task
        { taskFixture with is_active := false, updated_at := 9 }) ∧
    Scheduler.execute_scheduled_task 11 1 (fun s => (s, .ok "x"))
        (taskDBFixture.set_task
          { taskFixture with is_active := false, updated_at := 9 }) =
      (taskDBFixture.set_task
        { taskFixture with is_active := false, updated_at := 9 }, false, []) :=
  let h := disable_task_deactivates_without_unscheduling 9 1 taskDBFixture
    taskFixture rfl
  ⟨h.1 schedFixture, h.2.1, h.2.2 11 (fun s => (s, .ok "x"))⟩

/-- C10: add_message appends exactly one message row, belonging to the target
conversation, sets that conversation's updated_at to now while preserving its
other fields, leaves every other conversation and every other conversation's
messages untouched, and does not touch the mappings or tasks tables. -/
theorem add_message_frame (now conversation_id : Nat) (role : MessageRole)
    (content : String) (tool_calls tool_results : Option Json) (st : DBState)
    (c : ConversationDB) (hc : c ∈ st.conversations)
    (hid : c.id = conversation_id) :
    ((ConversationManager.add_message now conversation_id role content
        tool_calls tool_results st).2.messages =
      st.messages ++ [(ConversationManager.add_message now conversation_id role
        content tool_calls tool_results st).1]) ∧
    ((ConversationManager.add_message now conversation_id role content
        tool_calls tool_results st).1.conversation_id = conversation_id) ∧
    (ConversationManager.get_messages conversation_id
        (ConversationManager.add_message now conversation_id role content
          tool_calls tool_results st).2 =
      ConversationManager.get_messages conversation_id st ++
        [(ConversationManager.add_message now conversation_id role content
          tool_calls tool_results st).1]) ∧
    (∀ d, d ≠ conversation_id →
      ConversationManager.get_messages d
          (ConversationManager.add_message now conversation_id role content
            tool_calls tool_results st).2 =
        ConversationManager.get_messages d st) ∧
    ({ c with updated_at := now } ∈
      (ConversationManager.add_message now conversation_id role content
        tool_calls tool_results st).2.conversations) ∧
    (∀ c' ∈ st.conversations, c'.id ≠ conversation_id →
      c' ∈ (ConversationManager.add_message now conversation_id role content
        tool_calls tool_results st).2.conversations) ∧
    ((ConversationManager.add_message now conversation_id role content
        tool_calls tool_results st).2.mappings = st.mappings) ∧
    ((ConversationManager.add_message now conversation_id role content
        tool_calls tool_results st).2.tasks = st.tasks) := by
  refine ⟨rfl, rfl, ?_, ?_, ?_, ?_, rfl, rfl⟩
  · simp [ConversationManager.get_messages, ConversationManager.add_message,
      List.filter_append]
  · intro d hd
    simp [ConversationManager.get_messages, ConversationManager.add_message,
      List.filter_append, Ne.symm hd]
  · have h := List.mem_map_of_mem (fun v : ConversationDB =>
      if v.id == conversation_id then { v with updated_at := now } else v) hc
    simpa [ConversationManager.add_message, hid] using h
  · intro c' hc' hne
    have h := List.mem_map_of_mem (fun v : ConversationDB =>
      if v.id == conversation_id then { v with updated_at := now } else v) hc'
    simpa [ConversationManager.add_message, hne] using h

/-- Witness for C10 on a two-conversation database: the target conversation
gains exactly the new message and its restamped row, the other conversation's
messages are untouched. -/
theorem add_message_frame_witness :
    (ConversationManager.get_messages 0
        (ConversationManager.add_message 9 0 .user "hi" none none twoConvDB).2 =
      ConversationManager.get_messages 0 twoConvDB ++
        [(ConversationManager.add_message 9 0 .user "hi" none none twoConvDB).1]) ∧
    (ConversationManager.get_messages 5
        (ConversationManager.add_message 9 0 .user "hi" none none twoConvDB).2 =
      ConversationManager.get_messages 5 twoConvDB) ∧
    ({ convFixture with updated_at := 9 } ∈
      (ConversationManager.add_message 9 0 .user "hi" none none twoConvDB).2.conversations) :=
  have h := add_message_frame 9 0 .user "hi" none none twoConvDB convFixture
    (List.mem_cons_self _ _) rfl
  ⟨h.2.2.1, h.2.2.2.1 5 (by decide), h.2.2.2.2.1⟩

/-- C6: when the adapter capability descriptor does not advertise streaming,
or the runner's does not, execute_with_channel_context takes the
non-streaming path: it never invokes the streaming-append facet, and when
the runner produces a result it issues exactly one base send call carrying
the complete result. -/
theorem non_streaming_path_single_send (now : Nat) (runner : RunnerInstance)
    (adapter : AdapterInstance) (conversation_id : Nat) (user_message : String)
    (thread_id : Option String) (adapter_metadata : Option Json) (st : DBState)
    (hcap : adapter.capabilities.supports_streaming = false ∨
            runner.capabilities.supports_streaming = false) :
    ((AgentExecutor.execute_with_channel_context now runner adapter
        conversation_id user_message thread_id adapter_metadata st).2.1.filter
        AdapterCall.isStreamChunk = []) ∧
    (∀ content, runner.execute_non_streaming = .ok content →
      (AgentExecutor.execute_with_channel_context now runner adapter
        conversation_id user_message thread_id adapter_metadata st).2.1 =
        [AdapterCall.send_message content thread_id adapter_metadata]) := by
  have hcond : (adapter.capabilities.supports_streaming &&
      runner.capabilities.supports_streaming && adapter.streaming_capable) = false := by
    rcases hcap with h | h <;> simp [h]
  constructor
  · simp only [AgentExecutor.execute_with_channel_context, hcond]
    cases hr : runner.execute_non_streaming <;>
      simp [hr, AdapterCall.isStreamChunk]
  · intro content hok
    simp only [AgentExecutor.execute_with_channel_context, hcond]
    simp [hok]

/-- Witness for C6: a streaming-capable runner against the email adapter
(no streaming) issues exactly one send and no streaming append. -/
theorem non_streaming_path_single_send_witness :
    ((AgentExecutor.execute_with_channel_context 9 streamingRunner
        emailAdapterInstance 0 "hi" none none twoConvDB).2.1.filter
        AdapterCall.isStreamChunk = []) ∧
    ((AgentExecutor.execute_with_channel_context 9 streamingRunner
        emailAdapterInstance 0 "hi" none none twoConvDB).2.1 =
      [AdapterCall.send_message "Hello" none none]) :=
  have h := non_streaming_path_single_send 9 streamingRunner
    emailAdapterInstance 0 "hi" none none twoConvDB (Or.inl rfl)
  ⟨h.1, h.2 "Hello" rfl⟩

/-- Evaluation of the slack verifier on an assembled request. -/
theorem slack_verify_eval (hmacSha256 : String → String → String) (now : Int)
    (signing_secret signature timestamp body : String) :
    SlackChannelAdapter.verify_request hmacSha256 now signing_secret
      (mkSlackRequest signature timestamp body) =
    (match pyInt? timestamp with
     | none => false
     | some request_time =>
       if (now - request_time).natAbs > 300 then false
       else ("v0=" ++ hmacSha256 signing_secret
         ("v0:" ++ timestamp ++ ":" ++ body)) == signature) := rfl

/-- Evaluation of the email verifier on an assembled request. -/
theorem email_verify_eval (hmacSha256 : String → String → String) (now : Int)
    (mailgun_api_key timestamp token signature : String) :
    EmailChannelAdapter.verify_request hmacSha256 now mailgun_api_key
      (mkEmailRequest timestamp token signature) =
    (if timestamp.isEmpty || token.isEmpty || signature.isEmpty then false
     else match pyInt? timestamp with
       | none => false
       | some timestamp_int =>
         if now - timestamp_int > 900 then false
         else signature == hmacSha256 mailgun_api_key (timestamp ++ token)) := rfl

/-- C4 counterexample: a Mailgun webhook request dated 1000 seconds in the
future, so that |now − timestamp| = 1000 exceeds the 900-second freshness
window, yet carrying the signature correctly computed under the shared
secret, is accepted by the email verifier: its freshness check is one-sided
and never rejects future-dated timestamps. -/
theorem email_verify_accepts_future_timestamp :
    ((0 : Int) - 1000).natAbs > 900 ∧
    EmailChannelAdapter.verify_request hmacTest 0 "s1"
      (mkEmailRequest "1000" "tok" (hmacTest "s1" "1000tok")) = true := by
  constructor
  · decide
  · rfl

/-- C4 (amended): the checks as implemented: the slack verifier rejects
whenever |now − timestamp| > 300 in either direction, and whenever the
supplied signature differs from the one recomputed under the signing secret;
the email verifier rejects whenever the timestamp is more than 900 seconds
in the past (now − timestamp > 900; future-dated timestamps are not rejected
by freshness) and whenever the supplied signature differs from the one
recomputed under the Mailgun key. -/
theorem verify_request_rejects (hmacSha256 : String → String → String) :
    (∀ (now : Int) (secret sig ts body : String) (t : Int),
      pyInt? ts = some t → (now - t).natAbs > 300 →
      SlackChannelAdapter.verify_request hmacSha256 now secret
        (mkSlackRequest sig ts body) = false) ∧
    (∀ (now : Int) (key ts token sig : String) (t : Int),
      pyInt? ts = some t → now - t > 900 →
      EmailChannelAdapter.verify_request hmacSha256 now key
        (mkEmailRequest ts token sig) = false) ∧
    (∀ (now : Int) (secret sig ts body : String),
      sig ≠ "v0=" ++ hmacSha256 secret ("v0:" ++ ts ++ ":" ++ body) →
      SlackChannelAdapter.verify_request hmacSha256 now secret
        (mkSlackRequest sig ts body) = false) ∧
    (∀ (now : Int) (key ts token sig : String),
      sig ≠ hmacSha256 key (ts ++ token) →
      EmailChannelAdapter.verify_request hmacSha256 now key
        (mkEmailRequest ts token sig) = false) := by
  refine ⟨?_, ?_, ?_, ?_⟩
  · intro now secret sig ts body t hts h300
    rw [slack_verify_eval]
    simp only [hts]
    rw [if_pos h300]
  · intro now key ts token sig t hts h900
    rw [email_verify_eval]
    split
    · rfl
    · simp only [hts]
      rw [if_pos h900]
  · intro now secret sig ts body hne
    rw [slack_verify_eval]
    cases hts : pyInt? ts with
    | none => rfl
    | some t =>
      show (if (now - t).natAbs > 300 then false
        else ("v0=" ++ hmacSha256 secret ("v0:" ++ ts ++ ":" ++ body)) == sig) = false
      by_cases h3 : (now - t).natAbs > 300
      · rw [if_pos h3]
      · rw [if_neg h3]
        exact beq_eq_false_iff_ne.mpr (Ne.symm hne)
  · intro now key ts token sig hne
    rw [email_verify_eval]
    split
    · rfl
    · cases hts : pyInt? ts with
      | none => rfl
      | some t =>
        show (if now - t > 900 then false
          else sig == hmacSha256 key (ts ++ token)) = false
        by_cases h9 : now - t > 900
        · rw [if_pos h9]
        · rw [if_neg h9]
          exact beq_eq_false_iff_ne.mpr hne

/-- Witness for the amended C4: a stale slack request, a stale email request,
a slack request signed under data that does not match, and an email request
signed under the wrong secret are all rejected. -/
theorem verify_request_rejects_witness :
    SlackChannelAdapter.verify_request hmacTest 1000 "sec"
      (mkSlackRequest "x" "0" "b") = false ∧
    EmailChannelAdapter.verify_request hmacTest 2000 "k"
      (mkEmailRequest "0" "t" "sg") = false ∧
    SlackChannelAdapter.verify_request hmacTest 0 "sec"
      (mkSlackRequest "bad" "0" "b") = false ∧
    EmailChannelAdapter.verify_request hmacTest 0 "k1"
      (mkEmailRequest "0" "tok" (hmacTest "k2" "0tok")) = false :=
  have h := verify_request_rejects hmacTest
  ⟨h.1 1000 "sec" "x" "0" "b" 0 rfl (by decide),
   h.2.1 2000 "k" "0" "t" "sg" 0 rfl (by decide),
   h.2.2.1 0 "sec" "bad" "0" "b" (by decide),
   h.2.2.2 0 "k1" "0" "tok" (hmacTest "k2" "0tok") (by decide)⟩

/-- C8 counterexample: an inbound slack event whose signature does not verify
is answered with HTTP 401, not with a 2xx-equivalent acknowledgment. -/
theorem slack_events_401_on_bad_signature :
    (Api.slack_events 0 hmacTest "sec" registryFixture slackEventBody
        badSlackHeaders "raw" emptyDB).2 =
      Response.httpError 401 "Invalid Slack signature" ∧
    Response.is2xx (Api.slack_events 0 hmacTest "sec" registryFixture
        slackEventBody badSlackHeaders "raw" emptyDB).2 = false :=
  ⟨rfl, rfl⟩

/-- C8 (amended): the email webhook, whenever Mailgun is configured,
acknowledges every request with a 2xx response even when internal processing
raises (SecurityError and every other exception are caught), and answers 503
when Mailgun is unconfigured; the slack events endpoint instead answers 401
when signature verification fails. -/
theorem webhook_ack_policy :
    (∀ (now : Nat) (settings : Settings)
       (adapters : ChannelAdapterManager.Registry) (event_data : Json)
       (st : DBState),
      truthyStr settings.mailgun_api_key = true →
      truthyStr settings.mailgun_domain = true →
      Response.is2xx (Api.email_webhook now settings adapters event_data st).2 =
        true) ∧
    (∀ (now : Nat) (settings : Settings)
       (adapters : ChannelAdapterManager.Registry) (event_data : Json)
       (st : DBState),
      (truthyStr settings.mailgun_api_key = false ∨
       truthyStr settings.mailgun_domain = false) →
      (Api.email_webhook now settings adapters event_data st).2 =
        Response.httpError 503 "Email service not configured") ∧
    (∀ (now : Nat) (hmacSha256 : String → String → String) (secret : String)
       (adapters : ChannelAdapterManager.Registry) (body headers : Json)
       (raw : String) (st : DBState) (ad : ChannelAdapterObj),
      (body.getStrD "type" "" == "url_verification") = false →
      ChannelAdapterManager.get_adapter adapters "slack" = .ok ad →
      SlackChannelAdapter.verify_request hmacSha256 now secret
        (.obj [("headers", headers), ("body", .s raw)]) = false →
      (Api.slack_events now hmacSha256 secret adapters body headers raw st).2 =
        Response.httpError 401 "Invalid Slack signature") := by
  refine ⟨?_, ?_, ?_⟩
  · intro now settings adapters event_data st hkey hdom
    rcases hh : ChannelAdapterManager.handle_incoming_event now adapters "email"
      event_data st with ⟨st1, r⟩
    cases r with
    | ok v => simp [Api.email_webhook, hkey, hdom, hh, Response.is2xx]
    | error e =>
      cases e <;> simp [Api.email_webhook, hkey, hdom, hh, Response.is2xx]
  · intro now settings adapters event_data st hcfg
    rcases hcfg with h | h <;> simp [Api.email_webhook, h]
  · intro now hmacSha256 secret adapters body headers raw st ad hbody had hv
    simp [Api.slack_events, hbody, had, hv]

/-- Witness for the amended C8: configured email acknowledges a forged event,
unconfigured email answers 503, and slack answers 401 on a bad signature. -/
theorem webhook_ack_policy_witness :
    Response.is2xx (Api.email_webhook 7 configuredSettings registryFixture
      forgedEmailEvent emptyDB).2 = true ∧
    (Api.email_webhook 7 unconfiguredSettings registryFixture forgedEmailEvent
      emptyDB).2 = Response.httpError 503 "Email service not configured" ∧
    (Api.slack_events 3 hmacTest "sec" registryFixture slackEventBody
      badSlackHeaders "rb" emptyDB).2 =
      Response.httpError 401 "Invalid Slack signature" :=
  have h := webhook_ack_policy
  ⟨h.1 7 configuredSettings registryFixture forgedEmailEvent emptyDB rfl rfl,
   h.2.1 7 unconfiguredSettings registryFixture forgedEmailEvent emptyDB
     (Or.inl rfl),
   h.2.2 3 hmacTest "sec" registryFixture slackEventBody badSlackHeaders "rb"
     emptyDB SlackChannelAdapter.adapter rfl rfl rfl⟩

/-- C3: the email webhook path performs no security verification at all:
EmailChannelAdapter.verify_request rejects the forged event under every HMAC
primitive, clock and key (the event carries no signature fields), yet
email_webhook on that very event creates a conversation and stores a channel
mapping — and still acknowledges with 200. The endpoint never calls
verify_request anywhere on the email path, although it catches a
SecurityError that no code on the path can raise. -/
theorem email_webhook_mutates_state_without_verification :
    (∀ (hmacSha256 : String → String → String) (now : Int) (key : String),
      EmailChannelAdapter.verify_request hmacSha256 now key forgedEmailEvent =
        false) ∧
    (Api.email_webhook 7 configuredSettings registryFixture forgedEmailEvent
        emptyDB).1.conversations.length = 1 ∧
    (Api.email_webhook 7 configuredSettings registryFixture forgedEmailEvent
        emptyDB).1.mappings.length = 1 ∧
    Response.is2xx (Api.email_webhook 7 configuredSettings registryFixture
        forgedEmailEvent emptyDB).2 = true := by
  refine ⟨?_, rfl, rfl, rfl⟩
  intro hmacSha256 now key
  rfl

/-- Helper: an unsuccessful find? makes any evaluate to false. -/
theorem any_eq_false_of_find?_eq_none {α : Type} {p : α → Bool} {l : List α}
    (h : l.find? p = none) : l.any p = false :=
  List.any_eq_false.mpr (List.find?_eq_none.mp h)

/-- Helper: when a mapping for the pair is already stored,
resolve_conversation returns it and changes nothing. -/
theorem resolve_conversation_found (now : Nat) (adapter_name : String)
    (message : ReceivedMessage) (st : DBState) (c : Nat)
    (h : ChannelAdapterManager.get_conversation_mapping adapter_name
      message.thread_id st = some c) :
    ChannelAdapterManager.resolve_conversation now adapter_name message st =
      (st, .ok c) := by
  unfold ChannelAdapterManager.resolve_conversation
  rw [h]

/-- Helper: the state component of handle_incoming_event is the state
component of its resolution step (the final add_message call raises before
touching the state). -/
theorem handle_incoming_event_state (now : Nat)
    (adapters : ChannelAdapterManager.Registry) (adapter_name : String)
    (adapter : ChannelAdapterObj) (ev : Json) (m : ReceivedMessage)
    (hreg : ChannelAdapterManager.get_adapter adapters adapter_name = .ok adapter)
    (hm : adapter.receive_message ev = .ok m) (st : DBState) :
    (ChannelAdapterManager.handle_incoming_event now adapters adapter_name
        ev st).1 =
      (ChannelAdapterManager.resolve_conversation now adapter_name m st).1 := by
  simp only [ChannelAdapterManager.handle_incoming_event, hreg, hm]
  rcases hres : ChannelAdapterManager.resolve_conversation now adapter_name m st
    with ⟨st1, r⟩
  cases r <;> rfl

/-- Helper: resolving a previously-unseen thread returns the freshly created
conversation id, appends that conversation, and appends the mapping row. -/
theorem resolve_conversation_new (now : Nat) (adapter_name : String)
    (message : ReceivedMessage) (st : DBState)
    (hnew : ChannelAdapterManager.get_conversation_mapping adapter_name
      message.thread_id st = none) :
    ((ChannelAdapterManager.resolve_conversation now adapter_name message
        st).2 = .ok st.nextId) ∧
    ((ChannelAdapterManager.resolve_conversation now adapter_name message
        st).1.conversations = st.conversations ++
      [{ id := st.nextId, user_id := message.sender_id, created_at := now,
         updated_at := now, status := .active,
         pattern_type := "channel_adapter",
         context_data := .obj [("adapter_name", .s adapter_name),
           ("initial_thread_id", .s message.thread_id)],
         task_id := none }]) ∧
    ((ChannelAdapterManager.resolve_conversation now adapter_name message
        st).1.mappings = st.mappings ++
      [{ id := st.nextId + 1, conversation_id := st.nextId,
         adapter_name := adapter_name, thread_id := message.thread_id,
         adapter_metadata := message.metadata, created_at := now }]) := by
  have hfind : st.mappings.find? (fun m => m.adapter_name == adapter_name &&
      m.thread_id == message.thread_id) = none :=
    Option.map_eq_none'.mp hnew
  have hany := any_eq_false_of_find?_eq_none hfind
  refine ⟨?_, ?_, ?_⟩ <;>
    simp [ChannelAdapterManager.resolve_conversation, hnew,
      ConversationManager.create_conversation,
      ChannelAdapterManager.store_conversation_mapping, hany]

/-- C1: after a first inbound event for a previously-unseen
(adapter name, thread id) pair has been processed — which stores its mapping
row — any later inbound event carrying the same pair resolves to the same
conversation id and creates no second conversation and no second mapping
row: the whole database state is unchanged by the second delivery. -/
theorem handle_incoming_event_idempotent (now1 now2 : Nat)
    (adapters : ChannelAdapterManager.Registry) (adapter_name : String)
    (adapter : ChannelAdapterObj)
    (hreg : ChannelAdapterManager.get_adapter adapters adapter_name =
      .ok adapter)
    (ev1 ev2 : Json) (m1 m2 : ReceivedMessage)
    (h1 : adapter.receive_message ev1 = .ok m1)
    (h2 : adapter.receive_message ev2 = .ok m2)
    (hthread : m2.thread_id = m1.thread_id)
    (st0 : DBState)
    (hnew : ChannelAdapterManager.get_conversation_mapping adapter_name
      m1.thread_id st0 = none) :
    ∃ c : Nat,
      ChannelAdapterManager.get_conversation_mapping adapter_name m2.thread_id
        (ChannelAdapterManager.handle_incoming_event now1 adapters adapter_name
          ev1 st0).1 = some c ∧
      (ChannelAdapterManager.resolve_conversation now1 adapter_name m1
        st0).2 = .ok c ∧
      (ChannelAdapterManager.resolve_conversation now2 adapter_name m2
        (ChannelAdapterManager.handle_incoming_event now1 adapters adapter_name
          ev1 st0).1).2 = .ok c ∧
      (ChannelAdapterManager.handle_incoming_event now2 adapters adapter_name
        ev2 (ChannelAdapterManager.handle_incoming_event now1 adapters
          adapter_name ev1 st0).1).1 =
      (ChannelAdapterManager.handle_incoming_event now1 adapters adapter_name
        ev1 st0).1 := by
  have hres1 := resolve_conversation_new now1 adapter_name m1 st0 hnew
  have hA1 := handle_incoming_event_state now1 adapters adapter_name adapter
    ev1 m1 hreg h1 st0
  have hfind0 : st0.mappings.find? (fun m => m.adapter_name == adapter_name &&
      m.thread_id == m1.thread_id) = none :=
    Option.map_eq_none'.mp hnew
  have hlook : ChannelAdapterManager.get_conversation_mapping adapter_name
      m1.thread_id (ChannelAdapterManager.handle_incoming_event now1 adapters
        adapter_name ev1 st0).1 = some st0.nextId := by
    rw [hA1]
    unfold ChannelAdapterManager.get_conversation_mapping
    rw [hres1.2.2, List.find?_append, hfind0]
    simp
  have hlook2 : ChannelAdapterManager.get_conversation_mapping adapter_name
      m2.thread_id (ChannelAdapterManager.handle_incoming_event now1 adapters
        adapter_name ev1 st0).1 = some st0.nextId := by
    rw [hthread]; exact hlook
  refine ⟨st0.nextId, hlook2, hres1.1, ?_, ?_⟩
  · rw [resolve_conversation_found now2 adapter_name m2 _ st0.nextId hlook2]
  · have hA2 := handle_incoming_event_state now2 adapters adapter_name adapter
      ev2 m2 hreg h2
      ((ChannelAdapterManager.handle_incoming_event now1 adapters adapter_name
        ev1 st0).1)
    rw [hA2,
      resolve_conversation_found now2 adapter_name m2 _ st0.nextId hlook2]

/-- Witness for C1: a first Mailgun delivery for thread m1 on a fresh
database, then a second delivery with the same message-id. -/
theorem handle_incoming_event_idempotent_witness :
    ∃ c : Nat,
      ChannelAdapterManager.get_conversation_mapping "email"
        (EmailChannelAdapter.receive_message secondEmailEvent).thread_id
        (ChannelAdapterManager.handle_incoming_event 4 registryFixture "email"
          forgedEmailEvent emptyDB).1 = some c ∧
      (ChannelAdapterManager.resolve_conversation 4 "email"
        (EmailChannelAdapter.receive_message forgedEmailEvent) emptyDB).2 =
        .ok c ∧
      (ChannelAdapterManager.resolve_conversation 6 "email"
        (EmailChannelAdapter.receive_message secondEmailEvent)
        (ChannelAdapterManager.handle_incoming_event 4 registryFixture "email"
          forgedEmailEvent emptyDB).1).2 = .ok c ∧
      (ChannelAdapterManager.handle_incoming_event 6 registryFixture "email"
        secondEmailEvent (ChannelAdapterManager.handle_incoming_event 4
          registryFixture "email" forgedEmailEvent emptyDB).1).1 =
      (ChannelAdapterManager.handle_incoming_event 4 registryFixture "email"
        forgedEmailEvent emptyDB).1 :=
  handle_incoming_event_idempotent 4 6 registryFixture "email"
    EmailChannelAdapter.adapter rfl forgedEmailEvent secondEmailEvent
    (EmailChannelAdapter.receive_message forgedEmailEvent)
    (EmailChannelAdapter.receive_message secondEmailEvent) rfl rfl rfl
    emptyDB rfl

/-- Helper: uniqueness only depends on the mappings table. -/
theorem uniq_of_mappings_eq {st st' : DBState} (h : st'.mappings = st.mappings)
    (hu : MappingUniq st) : MappingUniq st' := by
  unfold MappingUniq at hu ⊢
  rw [h]
  exact hu

/-- Helper: a successful flush of a new mapping row preserves uniqueness,
because the flush raises an IntegrityError whenever the pair is already
present. -/
theorem store_preserves_uniq (now cid : Nat) (a t : String) (md : Json)
    (st st' : DBState) (h : MappingUniq st)
    (hok : ChannelAdapterManager.store_conversation_mapping now cid a t md st =
      .ok st') : MappingUniq st' := by
  unfold ChannelAdapterManager.store_conversation_mapping at hok
  cases hc : st.mappings.any (fun m =>
      m.adapter_name == a && m.thread_id == t) with
  | true => rw [hc] at hok; simp at hok
  | false =>
    rw [hc] at hok
    simp only [Bool.false_eq_true, if_neg, not_false_iff, Except.ok.injEq] at hok
    subst hok
    unfold MappingUniq
    rw [List.pairwise_append]
    refine ⟨h, by simp, ?_⟩
    intro x hx y hy
    rw [List.mem_singleton] at hy
    subst hy
    rintro ⟨e1, e2⟩
    have hfalse := List.any_eq_false.mp hc x hx
    apply hfalse
    simp only [e1, e2]
    simp

/-- Helper: the two arms of the match on a store result both preserve
uniqueness. -/
theorem store_arms_uniq (now cid : Nat) (a t : String) (md : Json)
    (st1 : DBState) (h1 : MappingUniq st1) :
    MappingUniq ((match ChannelAdapterManager.store_conversation_mapping now
        cid a t md st1 with
      | .error e => (st1, (Except.error e : Except PyError Nat))
      | .ok st2 => (st2, Except.ok cid)) : DBState × Except PyError Nat).1 := by
  cases hs : ChannelAdapterManager.store_conversation_mapping now cid a t md st1
    with
  | error e => exact h1
  | ok st2 => exact store_preserves_uniq now cid a t md st1 st2 h1 hs

/-- Helper: the resolution step preserves uniqueness. -/
theorem resolve_preserves_uniq (now : Nat) (a : String) (m : ReceivedMessage)
    (st : DBState) (h : MappingUniq st) :
    MappingUniq (ChannelAdapterManager.resolve_conversation now a m st).1 := by
  unfold ChannelAdapterManager.resolve_conversation
  cases hl : ChannelAdapterManager.get_conversation_mapping a m.thread_id st
    with
  | some c => exact h
  | none =>
    simp only [ConversationManager.create_conversation]
    exact store_arms_uniq _ _ _ _ _ _ (uniq_of_mappings_eq rfl h)

/-- Helper: handle_incoming_event preserves uniqueness. -/
theorem handle_preserves_uniq (now : Nat)
    (adapters : ChannelAdapterManager.Registry) (a : String) (ev : Json)
    (st : DBState) (h : MappingUniq st) :
    MappingUniq (ChannelAdapterManager.handle_incoming_event now adapters a ev
      st).1 := by
  cases hg : ChannelAdapterManager.get_adapter adapters a with
  | error e =>
    simp only [ChannelAdapterManager.handle_incoming_event, hg]
    exact h
  | ok adapter =>
    cases hr : adapter.receive_message ev with
    | error e =>
      simp only [ChannelAdapterManager.handle_incoming_event, hg, hr]
      exact h
    | ok m =>
      simp only [ChannelAdapterManager.handle_incoming_event, hg, hr]
      rcases hres : ChannelAdapterManager.resolve_conversation now a m st
        with ⟨st1, r⟩
      have hu := resolve_preserves_uniq now a m st h
      rw [hres] at hu
      cases r <;> exact hu

/-- Helper: the mappings table is untouched by the channel-aware execution
path. -/
theorem ewcc_mappings (now : Nat) (runner : RunnerInstance)
    (adapter : AdapterInstance) (cid : Nat) (msg : String)
    (tid : Option String) (md : Option Json) (st : DBState) :
    (AgentExecutor.execute_with_channel_context now runner adapter cid msg tid
      md st).1.mappings = st.mappings := by
  unfold AgentExecutor.execute_with_channel_context
  simp only [ConversationManager.add_message]
  cases hc : (adapter.capabilities.supports_streaming &&
      runner.capabilities.supports_streaming && adapter.streaming_capable) with
  | false =>
    simp only [Bool.false_eq_true, if_false]
    cases hr : runner.execute_non_streaming <;> rfl
  | true =>
    rcases hsl : AgentExecutor.stream_loop adapter tid md runner.stream "" none
      [] with ⟨fr, mid, calls⟩
    cases mid <;> rfl

/-- C2: the mapping-store uniqueness invariant — at most one row per
(adapter name, thread id) pair — holds of the initial state and is preserved
by every state-transforming operation of the embedded system: conversation
creation, message append, mapping store (whose flush enforces the declared
unique constraint), inbound-event handling, task execution (for any
execution step that does not write the mappings table, as the background
path does not), task disabling, task creation, channel-aware execution, and
the three webhook endpoints. -/
theorem mapping_uniqueness_invariant :
    MappingUniq emptyDB ∧
    (∀ (now : Nat) (uid pt : String) (cd : Option Json) (st : DBState),
      MappingUniq st →
      MappingUniq (ConversationManager.create_conversation now uid pt cd
        st).2) ∧
    (∀ (now cid : Nat) (role : MessageRole) (content : String)
       (tc tr : Option Json) (st : DBState), MappingUniq st →
      MappingUniq (ConversationManager.add_message now cid role content tc tr
        st).2) ∧
    (∀ (now cid : Nat) (a t : String) (md : Json) (st st' : DBState),
      MappingUniq st →
      ChannelAdapterManager.store_conversation_mapping now cid a t md st =
        .ok st' →
      MappingUniq st') ∧
    (∀ (now : Nat) (adapters : ChannelAdapterManager.Registry) (a : String)
       (ev : Json) (st : DBState), MappingUniq st →
      MappingUniq (ChannelAdapterManager.handle_incoming_event now adapters a
        ev st).1) ∧
    (∀ (now task_id : Nat)
       (runStep : DBState → DBState × Except String String) (st : DBState),
      (∀ s, ((runStep s).1).mappings = s.mappings) → MappingUniq st →
      MappingUniq (TaskManager.execute_task now task_id runStep st).1) ∧
    (∀ (now task_id : Nat) (st st' : DBState), MappingUniq st →
      TaskManager.disable_task now task_id st = .ok st' → MappingUniq st') ∧
    (∀ (now : Nat) (uid : String) (tt : TaskType) (prompt : String)
       (se : Option String) (tc : Option Json)
       (nc : Option NotificationConfig) (ac : Option Json) (st : DBState),
      MappingUniq st →
      MappingUniq (TaskManager.create_task now uid tt prompt se tc nc ac
        st).2) ∧
    (∀ (now : Nat) (runner : RunnerInstance) (adapter : AdapterInstance)
       (cid : Nat) (msg : String) (tid : Option String) (md : Option Json)
       (st : DBState), MappingUniq st →
      MappingUniq (AgentExecutor.execute_with_channel_context now runner
        adapter cid msg tid md st).1) ∧
    (∀ (now : Nat) (settings : Settings)
       (adapters : ChannelAdapterManager.Registry) (ev : Json) (st : DBState),
      MappingUniq st →
      MappingUniq (Api.email_webhook now settings adapters ev st).1) ∧
    (∀ (now : Nat) (hmacSha256 : String → String → String) (secret : String)
       (adapters : ChannelAdapterManager.Registry) (body headers : Json)
       (raw : String) (st : DBState), MappingUniq st →
      MappingUniq (Api.slack_events now hmacSha256 secret adapters body
        headers raw st).1) ∧
    (∀ (now : Nat) (hmacSha256 : String → String → String) (secret : String)
       (adapters : ChannelAdapterManager.Registry) (fresh_uuid : Nat)
       (payload headers : Json) (raw : String) (st : DBState), MappingUniq st →
      MappingUniq (Api.slack_interactions now hmacSha256 secret adapters
        fresh_uuid payload headers raw st).1) := by
  refine ⟨by simp [MappingUniq, emptyDB], ?_, ?_, ?_, ?_, ?_, ?_, ?_, ?_, ?_,
    ?_, ?_⟩
  · intro now uid pt cd st h
    exact uniq_of_mappings_eq rfl h
  · intro now cid role content tc tr st h
    exact uniq_of_mappings_eq rfl h
  · intro now cid a t md st st' h hok
    exact store_preserves_uniq now cid a t md st st' h hok
  · intro now adapters a ev st h
    exact handle_preserves_uniq now adapters a ev st h
  · intro now task_id runStep st hrun h
    cases hg : st.get_task task_id with
    | none =>
      simp only [TaskManager.execute_task, hg]
      exact h
    | some t =>
      cases ha : t.is_active with
      | false =>
        simp only [TaskManager.execute_task, hg, ha, Bool.not_false,
          eq_self_iff_true, if_true]
        exact h
      | true =>
        simp only [TaskManager.execute_task, hg]
        rw [if_neg (by simp [ha])]
        rcases hrs : runStep (st.set_task
          { t with status := .running, started_at := some now }) with ⟨st2, out⟩
        have hm2 : st2.mappings = st.mappings := by
          have hx := hrun (st.set_task
            { t with status := .running, started_at := some now })
          rw [hrs] at hx
          exact hx
        cases out <;> exact uniq_of_mappings_eq hm2 h
  · intro now task_id st st' h hok
    unfold TaskManager.disable_task at hok
    cases hg : st.get_task task_id with
    | none => rw [hg] at hok; simp at hok
    | some t =>
      rw [hg] at hok
      simp only [Except.ok.injEq] at hok
      subst hok
      exact uniq_of_mappings_eq rfl h
  · intro now uid tt prompt se tc nc ac st h
    exact uniq_of_mappings_eq rfl h
  · intro now runner adapter cid msg tid md st h
    exact uniq_of_mappings_eq (ewcc_mappings now runner adapter cid msg tid md
      st) h
  · intro now settings adapters ev st h
    unfold Api.email_webhook
    split
    · exact h
    · rcases hh : ChannelAdapterManager.handle_incoming_event now adapters
        "email" ev st with ⟨st1, r⟩
      have hu := handle_preserves_uniq now adapters "email" ev st h
      rw [hh] at hu
      cases r with
      | ok v =>
        rcases v with ⟨cid', tid'⟩
        exact hu
      | error e => cases e <;> exact hu
  · intro now hmacSha256 secret adapters body headers raw st h
    cases hcond : (body.getStrD "type" "" == "url_verification") with
    | true =>
      simp only [Api.slack_events, hcond]
      exact h
    | false =>
      cases hg : ChannelAdapterManager.get_adapter adapters "slack" with
      | error e =>
        simp only [Api.slack_events, hcond, hg]
        exact h
      | ok ad =>
        cases hv : SlackChannelAdapter.verify_request hmacSha256 now secret
            (.obj [("headers", headers), ("body", .s raw)]) with
        | false =>
          simp [Api.slack_events, hcond, hg, hv]
          exact h
        | true =>
          simp only [Api.slack_events, hcond, hg, hv, Bool.not_true,
            Bool.false_eq_true, if_false]
          rcases hh : ChannelAdapterManager.handle_incoming_event now adapters
            "slack" body st with ⟨st1, r⟩
          have hu := handle_preserves_uniq now adapters "slack" body st h
          rw [hh] at hu
          cases r with
          | ok v =>
            rcases v with ⟨cid', tid'⟩
            exact hu
          | error e => cases e <;> exact hu
  · intro now hmacSha256 secret adapters fresh_uuid payload headers raw st h
    cases hg : ChannelAdapterManager.get_adapter adapters "slack" with
    | error e =>
      simp only [Api.slack_interactions, hg]
      exact h
    | ok ad =>
      cases hv : SlackChannelAdapter.verify_request hmacSha256 now secret
          (.obj [("headers", headers), ("body", .s raw)]) with
      | false =>
        simp [Api.slack_interactions, hg, hv]
        exact h
      | true =>
        simp only [Api.slack_interactions, hg, hv, Bool.not_true,
          Bool.false_eq_true, if_false]
        cases hi : SlackChannelAdapter.handle_interaction fresh_uuid payload
          with
        | error e => cases e <;> exact h
        | ok interaction_response =>
          show MappingUniq (match ChannelAdapterManager.store_conversation_mapping
              now interaction_response.conversation_id "slack"
              (payload.getStrD "trigger_id" "") payload st with
            | .error e => (st, Response.uncaught e)
            | .ok st1 => (st1, Response.ack (.obj [("ok", .b true),
                ("action_id", .s interaction_response.action_id)]))).1
          cases hs : ChannelAdapterManager.store_conversation_mapping now
            interaction_response.conversation_id "slack"
            (payload.getStrD "trigger_id" "") payload st with
          | error e => exact h
          | ok st1 =>
            exact store_preserves_uniq now interaction_response.conversation_id
              "slack" (payload.getStrD "trigger_id" "") payload st st1 h hs

/-- Witness for C2: uniqueness holds of the fresh database and is preserved
by a concrete inbound email delivery and by the email webhook. -/
theorem mapping_uniqueness_invariant_witness :
    MappingUniq (ChannelAdapterManager.handle_incoming_event 4 registryFixture
      "email" forgedEmailEvent emptyDB).1 ∧
    MappingUniq (Api.email_webhook 7 configuredSettings registryFixture
      forgedEmailEvent emptyDB).1 :=
  have h := mapping_uniqueness_invariant
  ⟨h.2.2.2.2.1 4 registryFixture "email" forgedEmailEvent emptyDB h.1,
   h.2.2.2.2.2.2.2.2.2.1 7 configuredSettings registryFixture forgedEmailEvent
     emptyDB h.1⟩

end App
